import Mathlib

/-!
Verification development for the team-health analytics and predictive-trend
engine of the standup-tracking application.

The definitions below are shallow embeddings of the Python source:
  - `src/dashboard/services.py`    (MVPTeamHealthService metric calculators
                                    and the composite health scorer)
  - `src/dashboard/models.py`      (TeamHealthTrend.calculate_trend)
  - `src/dashboard/predictive_analytics.py`
                                   (trend-slope primitive and the sentiment
                                    prediction model)
  - `src/dashboard/early_warning_system.py`
                                   (content quality, burnout scoring, the
                                    sentiment-decline and burnout checks and
                                    alert deduplication)

Modelling conventions:
  - Python floats are modelled as exact rationals; the constants written
    as decimal literals in the source (0.3, 1.1, ...) denote the same
    rational values here.
  - Python `round(x, k)` (round half to even) is `pyRound x k`.
  - Dates are integer day numbers; datetimes (alert timestamps) are
    rational hour counts. `demo_now().date()` is passed in as `today`
    and `demo_now()` as `now`.
  - Django querysets are lists; `aggregate(Avg(...))` is `listAvg`,
    which is `none` on an empty set exactly as SQL AVG is NULL.
  - Python truthiness of an optional float (None and 0.0 are falsy)
    is `pyTruthy`.
  - Django model rows are structures holding the fields the verified
    properties mention; free-text fields that no property constrains
    (alert titles, descriptions, context_data) are omitted from the
    alert record.
-/

/-- Round half to even (the semantics of Python `round`) to an integer. -/
def roundHalfEven (q : ℚ) : ℤ :=
  let f := ⌊q⌋
  let r := q - f
  if r < 1/2 then f
  else if r > 1/2 then f + 1
  else if f % 2 = 0 then f else f + 1

/-- Python `round(q, k)`: round half to even at `k` decimal digits. -/
def pyRound (q : ℚ) (k : ℕ) : ℚ :=
  (roundHalfEven (q * 10 ^ k) : ℚ) / 10 ^ k

/-- Django `aggregate(Avg(field))`: the mean of a list of rationals,
`none` when the list is empty (SQL AVG of an empty set is NULL). -/
def listAvg (l : List ℚ) : Option ℚ :=
  if l.isEmpty then none else some (l.sum / l.length)

/-- Python truthiness of an optional float: `None` and `0.0` are falsy. -/
def pyTruthy (o : Option ℚ) : Prop := o.getD 0 ≠ 0

instance (o : Option ℚ) : Decidable (pyTruthy o) := by
  unfold pyTruthy; infer_instance

/-- A StandupSession row, with the fields the analytics engine reads.
`workItems` holds the statuses of the WorkItemReference rows attached to
this session (the source reaches them through the reverse foreign key). -/
structure Session where
  project : ℕ
  user : ℕ
  date : ℤ
  status : String
  sentimentScore : Option ℚ
  yesterdayWork : String
  todayPlan : String
  blockers : String
  workItems : List String
deriving DecidableEq, Repr

/-! ## Metric calculators (`MVPTeamHealthService`, `src/dashboard/services.py`) -/

/-- Result shape of `_get_participation_metrics`.  The empty-range branch of
the source returns a dict without the `data_points` and `last_updated` keys;
those fields are therefore `Option`s, `none` meaning the key is absent. -/
structure ParticipationMetrics where
  rate : ℚ
  trend : String
  status : String
  dataPoints : Option ℕ
  lastUpdated : Option ℤ
deriving DecidableEq, Repr

/-- Result shape of `_get_sentiment_metrics`. -/
structure SentimentMetrics where
  score : ℚ
  trend : String
  status : String
  dataPoints : Option ℕ
  lastUpdated : Option ℤ
deriving DecidableEq, Repr

/-- Result shape of `_get_blocker_metrics`. -/
structure BlockerMetrics where
  resolutionRate : ℚ
  trend : String
  status : String
  dataPoints : Option ℕ
  lastUpdated : Option ℤ
deriving DecidableEq, Repr

/-- Result shape of `_get_work_item_metrics`. -/
structure WorkItemMetrics where
  completionRate : ℚ
  trend : String
  status : String
  dataPoints : Option ℕ
  lastUpdated : Option ℤ
deriving DecidableEq, Repr

/-- The queryset of `_get_participation_metrics` (and `_get_blocker_metrics`):
sessions of the project with `date__range=[start_date, end_date]`. -/
def range_sessions (sessions : List Session) (proj : ℕ) (startD endD : ℤ) :
    List Session :=
  sessions.filter fun s => s.project = proj ∧ startD ≤ s.date ∧ s.date ≤ endD

/-- Python `mid_date = start_date + (end_date - start_date) // 2` (floor division). -/
def mid_date (startD endD : ℤ) : ℤ := startD + (endD - startD).fdiv 2

/-- Embedding of `_get_participation_metrics(start_date, end_date)` of
`MVPTeamHealthService` (`src/dashboard/services.py`). -/
def get_participation_metrics (sessions : List Session) (proj : ℕ)
    (startD endD : ℤ) : ParticipationMetrics :=
  let ss := range_sessions sessions proj startD endD
  if ss.isEmpty then
    { rate := 0, trend := "no_data", status := "concerning",
      dataPoints := none, lastUpdated := none }
  else
    let total := ss.length
    let completed := (ss.filter fun s => s.status = "completed").length
    let rate : ℚ := if total > 0 then (completed : ℚ) / total * 100 else 0
    let mid := mid_date startD endD
    let firstHalf := (ss.filter fun s => s.date < mid).length
    let secondHalf := (ss.filter fun s => mid ≤ s.date).length
    let trend :=
      if firstHalf = 0 then "stable"
      else if (secondHalf : ℚ) > firstHalf * 1.1 then "improving"
      else if (secondHalf : ℚ) < firstHalf * 0.9 then "declining"
      else "stable"
    let status :=
      if rate ≥ 70 then "good" else if rate < 50 then "concerning"
      else "average"
    { rate := pyRound rate 1, trend := trend, status := status,
      dataPoints := some total, lastUpdated := some endD }

/-- The queryset of `_get_sentiment_metrics`: range sessions with
`sentiment_score` not null. -/
def sentiment_sessions (sessions : List Session) (proj : ℕ)
    (startD endD : ℤ) : List Session :=
  (range_sessions sessions proj startD endD).filter fun s =>
    s.sentimentScore.isSome

/-- Embedding of `_get_sentiment_metrics` of `MVPTeamHealthService`:
note the trend compares first-half and second-half average scores with
1.05/0.95 factors, unlike the count-based calculators. -/
def get_sentiment_metrics (sessions : List Session) (proj : ℕ)
    (startD endD : ℤ) : SentimentMetrics :=
  let ss := sentiment_sessions sessions proj startD endD
  if ss.isEmpty then
    { score := 0, trend := "no_data", status := "neutral",
      dataPoints := none, lastUpdated := none }
  else
    let scores := ss.filterMap fun s => s.sentimentScore
    let avg : ℚ := if scores.isEmpty then 0 else scores.sum / scores.length
    let avg100 := avg * 100
    let mid := mid_date startD endD
    let firstScores :=
      (ss.filter fun s => s.date < mid).filterMap fun s => s.sentimentScore
    let secondScores :=
      (ss.filter fun s => mid ≤ s.date).filterMap fun s => s.sentimentScore
    let trend :=
      if firstScores.isEmpty then "stable"
      else
        let firstAvg := firstScores.sum / firstScores.length
        let secondAvg :=
          if secondScores.isEmpty then firstAvg
          else secondScores.sum / secondScores.length
        if secondAvg > firstAvg * 1.05 then "improving"
        else if secondAvg < firstAvg * 0.95 then "declining"
        else "stable"
    let status :=
      if avg100 ≥ 70 then "good" else if avg100 < 40 then "concerning"
      else "average"
    { score := pyRound avg100 1, trend := trend, status := status,
      dataPoints := some scores.length, lastUpdated := some endD }

/-- Embedding of `_get_blocker_metrics` of `MVPTeamHealthService`.
`int(n * 0.7)` is modelled as the floor of the exact product. -/
def get_blocker_metrics (sessions : List Session) (proj : ℕ)
    (startD endD : ℤ) : BlockerMetrics :=
  let ss := range_sessions sessions proj startD endD
  if ss.isEmpty then
    { resolutionRate := 0, trend := "no_data", status := "concerning",
      dataPoints := none, lastUpdated := none }
  else
    let withBlockers := (ss.filter fun s => s.blockers ≠ "").length
    let resolved : ℕ := (⌊(withBlockers : ℚ) * 0.7⌋).toNat
    let rate : ℚ :=
      if withBlockers > 0 then (resolved : ℚ) / withBlockers * 100 else 0
    let mid := mid_date startD endD
    let firstHalf :=
      ((ss.filter fun s => s.date < mid).filter fun s =>
        s.blockers ≠ "").length
    let secondHalf :=
      ((ss.filter fun s => mid ≤ s.date).filter fun s =>
        s.blockers ≠ "").length
    let trend :=
      if firstHalf = 0 then "stable"
      else if (secondHalf : ℚ) < firstHalf * 0.8 then "improving"
      else if (secondHalf : ℚ) > firstHalf * 1.2 then "declining"
      else "stable"
    let status :=
      if rate ≥ 80 then "good" else if rate < 60 then "concerning"
      else "average"
    { resolutionRate := pyRound rate 1, trend := trend, status := status,
      dataPoints := some withBlockers, lastUpdated := some endD }

/-- The work-item references joined to sessions of the project in the date
range, as `(session date, item status)` pairs (the source filters
`WorkItemReference` by `standup_session__project` and
`standup_session__date__range`). -/
def range_work_items (sessions : List Session) (proj : ℕ)
    (startD endD : ℤ) : List (ℤ × String) :=
  (range_sessions sessions proj startD endD).flatMap fun s =>
    s.workItems.map fun st => (s.date, st)

/-- Embedding of `_get_work_item_metrics` of `MVPTeamHealthService`. -/
def get_work_item_metrics (sessions : List Session) (proj : ℕ)
    (startD endD : ℤ) : WorkItemMetrics :=
  let items := range_work_items sessions proj startD endD
  if items.isEmpty then
    { completionRate := 0, trend := "no_data", status := "no_data",
      dataPoints := none, lastUpdated := none }
  else
    let total := items.length
    let completed := (items.filter fun it =>
      it.2 = "completed" ∨ it.2 = "done" ∨ it.2 = "approved").length
    let rate : ℚ := if total > 0 then (completed : ℚ) / total * 100 else 0
    let mid := mid_date startD endD
    let firstHalf := (items.filter fun it => it.1 < mid).length
    let secondHalf := (items.filter fun it => mid ≤ it.1).length
    let trend :=
      if firstHalf = 0 then "stable"
      else if (secondHalf : ℚ) > firstHalf * 1.1 then "improving"
      else if (secondHalf : ℚ) < firstHalf * 0.9 then "declining"
      else "stable"
    let status :=
      if rate ≥ 75 then "good" else if rate < 50 then "concerning"
      else "average"
    { completionRate := pyRound rate 1, trend := trend, status := status,
      dataPoints := some total, lastUpdated := some endD }

/-- Result shape of `_calculate_overall_health_score`. -/
structure HealthScore where
  score : ℚ
  status : String
  maxScore : ℚ
deriving DecidableEq, Repr

/-- Embedding of `_calculate_overall_health_score` of `MVPTeamHealthService`:
weighted sum of the four display values, rounded to one decimal. -/
def calculate_overall_health_score (p : ParticipationMetrics)
    (s : SentimentMetrics) (b : BlockerMetrics) (w : WorkItemMetrics) :
    HealthScore :=
  let scores : List ℚ :=
    [p.rate * 0.3, s.score * 0.25, b.resolutionRate * 0.25,
     w.completionRate * 0.2]
  let overall := scores.sum
  let status :=
    if overall ≥ 80 then "excellent" else if overall ≥ 70 then "good"
    else if overall < 50 then "concerning" else "average"
  { score := pyRound overall 1, status := status, maxScore := 100 }

/-! ## Trend store (`TeamHealthTrend`, `src/dashboard/models.py`) -/

/-- A TeamHealthTrend row, with the fields `calculate_trend` writes. -/
structure TrendPoint where
  project : ℕ
  metricType : String
  date : ℤ
  currentValue : ℚ
  previousValue : Option ℚ
  changePercentage : Option ℚ
  trendDirection : String
  rollingAverage7d : Option ℚ
  rollingAverage30d : Option ℚ
deriving DecidableEq, Repr

/-- Key equality for the unique constraint on (project, metric_type, date). -/
def trendKey (x : TrendPoint) (proj : ℕ) (mt : String) (d : ℤ) : Prop :=
  x.project = proj ∧ x.metricType = mt ∧ x.date = d

instance (x : TrendPoint) (proj : ℕ) (mt : String) (d : ℤ) :
    Decidable (trendKey x proj mt d) := by
  unfold trendKey; infer_instance

/-- Django `filter(project, metric_type, date__lt=date).order_by(-date).first()`:
the stored point for the key with the greatest date strictly before `d`
(ties keep the earlier row; the unique constraint rules ties out). -/
def mostRecentBefore (store : List TrendPoint) (proj : ℕ) (mt : String)
    (d : ℤ) : Option TrendPoint :=
  (store.filter fun x =>
      x.project = proj ∧ x.metricType = mt ∧ x.date < d).foldl
    (fun acc x =>
      match acc with
      | none => some x
      | some y => if y.date < x.date then some x else some y)
    none

/-- Django `update_or_create` keyed by (project, metric_type, date): replace
the matching row if one exists, otherwise insert the new row. -/
def upsertTrendPoint (store : List TrendPoint) (pt : TrendPoint) :
    List TrendPoint :=
  if store.any fun x => decide (trendKey x pt.project pt.metricType pt.date)
  then store.map fun x =>
    if trendKey x pt.project pt.metricType pt.date then pt else x
  else pt :: store

/-- Embedding of `TeamHealthTrend.calculate_trend(project, metric_type, current_value,
date)` (`src/dashboard/models.py`).  Returns the computed row and the store
after the upsert.  Note the branch order of the source: the `improving` and
`declining` tests run before the `volatile` test. -/
def calculate_trend (store : List TrendPoint) (proj : ℕ) (mt : String)
    (currentValue : ℚ) (d : ℤ) : TrendPoint × List TrendPoint :=
  let prev := (mostRecentBefore store proj mt d).map fun p => p.currentValue
  let cp : Option ℚ :=
    match prev with
    | none => none
    | some p => if p ≠ 0 then some ((currentValue - p) / p * 100) else none
  let dir : String :=
    match prev with
    | none => "stable"
    | some p =>
      if p ≠ 0 then
        let c := (currentValue - p) / p * 100
        if c > 5 then "improving"
        else if c < -5 then "declining"
        else if |c| > 15 then "volatile"
        else "stable"
      else "stable"
  let rolling7 := listAvg ((store.filter fun x =>
    x.project = proj ∧ x.metricType = mt ∧ d - 7 ≤ x.date ∧ x.date < d).map
      fun x => x.currentValue)
  let rolling30 := listAvg ((store.filter fun x =>
    x.project = proj ∧ x.metricType = mt ∧ d - 30 ≤ x.date ∧ x.date < d).map
      fun x => x.currentValue)
  let pt : TrendPoint :=
    { project := proj, metricType := mt, date := d,
      currentValue := currentValue, previousValue := prev,
      changePercentage := cp, trendDirection := dir,
      rollingAverage7d := rolling7, rollingAverage30d := rolling30 }
  (pt, upsertTrendPoint store pt)

/-! ## Predictive analytics (`src/dashboard/predictive_analytics.py`) -/

/-- Embedding of `_calculate_trend_slope(x_values, y_values)`: ordinary least-squares
slope, 0 on short or mismatched input or a zero denominator. -/
def calculate_trend_slope (xs ys : List ℚ) : ℚ :=
  if xs.length ≠ ys.length ∨ xs.length < 2 then 0
  else
    let n : ℚ := xs.length
    let sumX := xs.sum
    let sumY := ys.sum
    let sumXY := (List.zipWith (· * ·) xs ys).sum
    let sumXSq := (xs.map fun x => x * x).sum
    let den := n * sumXSq - sumX * sumX
    if den = 0 then 0 else (n * sumXY - sumX * sumY) / den

/-- One entry of `future_predictions` in `_predict_sentiment_trends`. -/
structure FuturePrediction where
  date : ℤ
  predictedSentiment : ℚ
  confidence : ℚ
deriving DecidableEq, Repr

/-- Result of `_predict_sentiment_trends` on sufficient data.  The
`weekly_patterns` and `volatility` keys of the source dict are omitted:
no verified property mentions them and the volatility is a square root,
which leaves the rationals. -/
structure SentimentPrediction where
  currentTrend : String
  trendSlope : ℚ
  recentAverage : ℚ
  historicalAverage : ℚ
  futurePredictions : List FuturePrediction
  dataPoints : ℕ
deriving DecidableEq, Repr

/-- Mean of a non-empty list (used where the source divides by `len`). -/
def avgOf (l : List ℚ) : ℚ := l.sum / l.length

/-- Insert a (date, value) pair into a list sorted by date (stable). -/
def insertByDate (p : ℤ × ℚ) : List (ℤ × ℚ) → List (ℤ × ℚ)
  | [] => [p]
  | q :: qs => if p.1 ≤ q.1 then p :: q :: qs else q :: insertByDate p qs

/-- Stable sort of (date, value) pairs by date, modelling Python
`sort(key=lambda x: x[0])`. -/
def sortByDate : List (ℤ × ℚ) → List (ℤ × ℚ)
  | [] => []
  | p :: ps => insertByDate p (sortByDate ps)

/-- The `daily_sentiment` grouping of `_predict_sentiment_trends`: one
(date, mean score) pair per distinct date carrying sentiment data, sorted
by date (`defaultdict` grouping keeps first-occurrence order, then the
source sorts chronologically). -/
def daily_sentiment_averages (data : List (ℤ × ℚ)) : List (ℤ × ℚ) :=
  let dates := (data.map Prod.fst).eraseDups
  sortByDate (dates.map fun dt =>
    (dt, avgOf (data.filterMap fun p =>
      if p.1 = dt then some p.2 else none)))

/-- Embedding of `_predict_sentiment_trends(sessions)` from `src/dashboard/predictive_analytics.py`.
Here `none` models the insufficient-data error dict the source returns. -/
def predict_sentiment_trends (sessions : List Session) :
    Option SentimentPrediction :=
  let data := sessions.filterMap fun s =>
    s.sentimentScore.map fun c => (s.date, c)
  if data.length < 5 then none
  else
    let pairs := daily_sentiment_averages data
    let daily := pairs.map Prod.snd
    let dates := pairs.map Prod.fst
    let slope := calculate_trend_slope
      ((List.range daily.length).map fun i : ℕ => (i : ℚ)) daily
    let lastScore := (daily.getLast?).getD 0
    let lastDate := (dates.getLast?).getD 0
    let preds := (List.range 7).map fun j =>
      let i : ℕ := j + 1
      let raw := lastScore + slope * (i : ℚ)
      let clamped := max 0 (min 1 raw)
      ({ date := lastDate + (i : ℤ), predictedSentiment := pyRound clamped 3,
         confidence := max (1/2) (1 - (i : ℚ) * (1/10)) } : FuturePrediction)
    let recentAvg :=
      (daily.drop (daily.length - 7)).sum / (min 7 daily.length : ℕ)
    let histAvg := daily.sum / daily.length
    some
      { currentTrend :=
          if slope > 1/100 then "improving"
          else if slope < -1/100 then "declining" else "stable",
        trendSlope := pyRound slope 4,
        recentAverage := pyRound recentAvg 3,
        historicalAverage := pyRound histAvg 3,
        futurePredictions := preds,
        dataPoints := daily.length }

/-! ## Early-warning engine (`src/dashboard/early_warning_system.py`) -/

/-- Constant `EarlyWarningSystem.SENTIMENT_DECLINE_THRESHOLD`. -/
def SENTIMENT_DECLINE_THRESHOLD : ℚ := -0.3

/-- Constant `EarlyWarningSystem.SENTIMENT_TREND_THRESHOLD` (note: negative). -/
def SENTIMENT_TREND_THRESHOLD : ℚ := -0.2

/-- Constant `EarlyWarningSystem.BURNOUT_INDICATOR_THRESHOLD`. -/
def BURNOUT_INDICATOR_THRESHOLD : ℕ := 3

/-- The work-indicator keywords of `_assess_content_quality`. -/
def quality_indicators : List String :=
  ["ticket", "bug", "feature", "test", "review", "deploy", "fix", "implement"]

/-- Python `str.lower()`: lowercase every character (structural
reformulation of `String.toLower`, which maps `Char.toLower` over the
characters). -/
def strToLower (s : String) : String := ⟨s.data.map Char.toLower⟩

/-- Python `needle in haystack` on strings. -/
def strContains (haystack needle : String) : Bool :=
  decide (List.IsInfix needle.toList haystack.toList)

/-- Embedding of `_assess_content_quality(session)`: 0.4 for substantial yesterday text,
0.4 for substantial today text, 0.2 for a work-indicator keyword, capped
at 1.0.  Python string truthiness (empty string falsy) is kept. -/
def assess_content_quality (s : Session) : ℚ :=
  let sc1 : ℚ :=
    if s.yesterdayWork ≠ "" ∧ s.yesterdayWork.trim.length > 20 then 0.4 else 0
  let sc2 : ℚ :=
    if s.todayPlan ≠ "" ∧ s.todayPlan.trim.length > 20 then 0.4 else 0
  let content := strToLower (s.yesterdayWork ++ " " ++ s.todayPlan)
  let sc3 : ℚ :=
    if quality_indicators.any (fun k => strContains content k) then 0.2 else 0
  min 1 (sc1 + sc2 + sc3)

/-- Embedding of `_calculate_burnout_score(member)`: the member sessions of
the last 14 days are given as `sessions` (the source queries them by user
and project). -/
def calculate_burnout_score (sessions : List Session) (today : ℤ) : ℕ :=
  let userSessions := sessions.filter fun s =>
    today - 14 ≤ s.date ∧ s.status = "completed"
  if userSessions.length = 0 then 0
  else
    let avgSentiment := listAvg (userSessions.filterMap fun s =>
      s.sentimentScore)
    let s1 : ℕ :=
      if pyTruthy avgSentiment ∧ avgSentiment.getD 0 < -0.3 then 2 else 0
    let blockerSessions := userSessions.filter fun s => s.blockers ≠ ""
    let s2 : ℕ :=
      if (blockerSessions.length : ℚ) / userSessions.length > 0.5 then 1
      else 0
    let lowQuality := (userSessions.filter fun s =>
      assess_content_quality s < 0.3).length
    let s3 : ℕ :=
      if (lowQuality : ℚ) > (userSessions.length : ℚ) * 0.4 then 1 else 0
    let s4 : ℕ := if (userSessions.length : ℚ) < 14 * 0.6 then 1 else 0
    s1 + s2 + s3 + s4

/-- A TeamHealthAlert row.  `title`, `description` and `context_data` are
free text the verified properties never constrain and are omitted;
`status` defaults to active and `created_at` to the creation time, as in
the model. -/
structure HealthAlert where
  id : ℕ
  project : ℕ
  teamMember : Option ℕ
  alertType : String
  severity : String
  status : String
  confidenceScore : ℚ
  createdAt : ℚ
deriving DecidableEq, Repr

/-- The alert table plus the auto-increment primary-key counter. -/
structure AlertStore where
  alerts : List HealthAlert
  nextId : ℕ
deriving DecidableEq, Repr

/-- What `_create_alert` reports for one alert: a freshly created row or a
duplicate of an existing one. -/
inductive AlertOutcome where
  | created (id : ℕ) (severity : String) (confidence : ℚ)
  | duplicate (existingId : ℕ)
deriving DecidableEq, Repr

/-- The duplicate filter of `_create_alert`: same project and alert type,
status active, created within the past 24 hours. -/
def dedupPred (proj : ℕ) (alertType : String) (now : ℚ)
    (a : HealthAlert) : Bool :=
  a.project == proj && a.alertType == alertType && a.status == "active"
    && decide (a.createdAt ≥ now - 24)

/-- Embedding of `_create_alert(project, alert_type, severity, ..., team_member)`:
report a duplicate when the filter finds an active recent alert of the
same (project, alert_type); otherwise insert a new active alert row.
The alert table is kept newest-first, matching the default model
`-created_at` ordering consumed by `.first()`. -/
def create_alert (store : AlertStore) (now : ℚ) (proj : ℕ)
    (alertType severity : String) (teamMember : Option ℕ)
    (confidence : ℚ) : AlertOutcome × AlertStore :=
  match store.alerts.find? (dedupPred proj alertType now) with
  | some a => (.duplicate a.id, store)
  | none =>
    let alert : HealthAlert :=
      { id := store.nextId, project := proj, teamMember := teamMember,
        alertType := alertType, severity := severity, status := "active",
        confidenceScore := confidence, createdAt := now }
    (.created alert.id severity confidence,
     { alerts := alert :: store.alerts, nextId := store.nextId + 1 })

/-- The queryset of `_check_sentiment_decline`: completed sessions of the
project dated in the last 14 days with a sentiment score. -/
def recent_sentiment_sessions (sessions : List Session) (proj : ℕ)
    (today : ℤ) : List Session :=
  sessions.filter fun s =>
    s.project = proj ∧ today - 14 ≤ s.date ∧ s.status = "completed" ∧
      s.sentimentScore.isSome

/-- Embedding of `_check_sentiment_decline(project)`: needs at least 5 recent sessions;
fires critical/high on absolutely low average sentiment, else medium on
the declining-trend test `newer < older - SENTIMENT_TREND_THRESHOLD`
(the threshold constant is negative, so this compares against
`older + 0.2`). -/
def check_sentiment_decline (sessions : List Session) (proj : ℕ)
    (today : ℤ) (store : AlertStore) (now : ℚ) :
    List AlertOutcome × AlertStore :=
  let recent := recent_sentiment_sessions sessions proj today
  if recent.length < 5 then ([], store)
  else
    let avgSentiment := listAvg (recent.filterMap fun s => s.sentimentScore)
    let mid := today - 14 + 7
    let older := listAvg ((recent.filter fun s => s.date < mid).filterMap
      fun s => s.sentimentScore)
    let newer := listAvg ((recent.filter fun s => mid ≤ s.date).filterMap
      fun s => s.sentimentScore)
    if pyTruthy avgSentiment ∧
        avgSentiment.getD 0 < SENTIMENT_DECLINE_THRESHOLD then
      let a := avgSentiment.getD 0
      let severity := if a < -0.5 then "critical" else "high"
      let r := create_alert store now proj "sentiment_decline" severity none
        (min 1 (|a| * 2))
      ([r.1], r.2)
    else if pyTruthy older ∧ pyTruthy newer ∧
        newer.getD 0 < older.getD 0 - SENTIMENT_TREND_THRESHOLD then
      let r := create_alert store now proj "sentiment_decline" "medium" none
        (min 1 ((older.getD 0 - newer.getD 0) * 3))
      ([r.1], r.2)
    else ([], store)

/-- An active TeamMember row: its id and the standup sessions of that user
in the project (the burnout query filters by user and project). -/
structure Member where
  id : ℕ
  sessions : List Session
deriving Repr

/-- The per-member body of the loop in `_check_team_member_burnout`: fire
an alert when the member burnout score reaches the threshold (critical
at 5, else high, confidence score/5 capped at 1). -/
def burnout_step (proj : ℕ) (today : ℤ) (now : ℚ)
    (acc : List AlertOutcome × AlertStore) (m : Member) :
    List AlertOutcome × AlertStore :=
  let score := calculate_burnout_score m.sessions today
  if BURNOUT_INDICATOR_THRESHOLD ≤ score then
    let severity := if 5 ≤ score then "critical" else "high"
    let r := create_alert acc.2 now proj "team_member_burnout" severity
      (some m.id) (min 1 ((score : ℚ) / 5))
    (acc.1 ++ [r.1], r.2)
  else acc

/-- Embedding of `_check_team_member_burnout(project)`: per active member, fire an alert
when the burnout score reaches the threshold; `_create_alert` dedupes on
(project, alert_type) only, so members after the first become duplicates. -/
def check_team_member_burnout (members : List Member) (proj : ℕ)
    (today : ℤ) (store : AlertStore) (now : ℚ) :
    List AlertOutcome × AlertStore :=
  members.foldl (burnout_step proj today now) ([], store)

/-! ## Spec-side rule definitions

These follow the words of the specification (and its amendments), for
comparison against the calculators embedded from the source. -/

/-- The count-based trend rule as the specification states it for every
calculator: first-half count 0 gives stable, otherwise compare the
second-half count against 110% and 90% of the first-half count. -/
def spec_count_trend (firstHalf secondHalf : ℕ) : String :=
  if firstHalf = 0 then "stable"
  else if (secondHalf : ℚ) > firstHalf * 1.1 then "improving"
  else if (secondHalf : ℚ) < firstHalf * 0.9 then "declining"
  else "stable"

/-- The inverted blocker-count trend rule as the source actually applies
it: fewer blocker sessions in the second half is improving, with 80% and
120% factors. -/
def spec_blocker_count_trend (firstHalf secondHalf : ℕ) : String :=
  if firstHalf = 0 then "stable"
  else if (secondHalf : ℚ) < firstHalf * 0.8 then "improving"
  else if (secondHalf : ℚ) > firstHalf * 1.2 then "declining"
  else "stable"

/-- The average-based sentiment trend rule as the source actually applies
it: compare half-window average scores with 105% and 95% factors, the
second-half average defaulting to the first-half average when the second
half is empty. -/
def spec_average_trend (firstScores secondScores : List ℚ) : String :=
  if firstScores.isEmpty then "stable"
  else
    let firstAvg := avgOf firstScores
    let secondAvg :=
      if secondScores.isEmpty then firstAvg else avgOf secondScores
    if secondAvg > firstAvg * 1.05 then "improving"
    else if secondAvg < firstAvg * 0.95 then "declining"
    else "stable"

/-! ## Concrete inputs used by witnesses and counterexamples -/

/-- Build a session of project 0 / user 0 with no work items. -/
def mkSession (d : ℤ) (st : String) (sc : Option ℚ) (blk : String) :
    Session :=
  { project := 0, user := 0, date := d, status := st, sentimentScore := sc,
    yesterdayWork := "", todayPlan := "", blockers := blk, workItems := [] }

@[simp] lemma mkSession_project (d st sc blk) :
    (mkSession d st sc blk).project = 0 := rfl

@[simp] lemma mkSession_date (d st sc blk) :
    (mkSession d st sc blk).date = d := rfl

@[simp] lemma mkSession_status (d st sc blk) :
    (mkSession d st sc blk).status = st := rfl

@[simp] lemma mkSession_sentimentScore (d st sc blk) :
    (mkSession d st sc blk).sentimentScore = sc := rfl

@[simp] lemma mkSession_yesterdayWork (d st sc blk) :
    (mkSession d st sc blk).yesterdayWork = "" := rfl

@[simp] lemma mkSession_todayPlan (d st sc blk) :
    (mkSession d st sc blk).todayPlan = "" := rfl

@[simp] lemma mkSession_blockers (d st sc blk) :
    (mkSession d st sc blk).blockers = blk := rfl

@[simp] lemma mkSession_workItems (d st sc blk) :
    (mkSession d st sc blk).workItems = [] := rfl

/-- Content quality of any `mkSession` (empty yesterday/today text): both
length bonuses fail on the empty strings and the keyword bonus fails on
the single-space content, so the score is 0. -/
lemma assess_content_quality_mkSession (d st sc blk) :
    assess_content_quality (mkSession d st sc blk) = 0 := by
  have happ : ("" ++ " " ++ "" : String) = " " := by decide
  have h3 : ¬ ∃ x ∈ quality_indicators, strContains (strToLower " ") x = true := by
    decide
  simp [assess_content_quality, happ, h3]

/-! ## C3: empty-range behaviour of the four metric calculators -/

/-- C3 counterexample: on a range with zero sessions the sentiment
calculator returns status `neutral`, which is neither `no_data` nor
`concerning`, and the returned dict has no `data_points` key at all
(modelled as `none`), so the claimed `data_points = 0` fails too. -/
theorem empty_range_sentiment_cex :
    (get_sentiment_metrics [] 0 0 7).status = "neutral" ∧
    "neutral" ≠ "no_data" ∧ "neutral" ≠ "concerning" ∧
    (get_sentiment_metrics [] 0 0 7).dataPoints = none := by
  refine ⟨rfl, by decide, by decide, rfl⟩

/-- C3 (amended): for every date range containing zero standup sessions,
each calculator returns, without raising, a zero-valued non-error result
with trend `no_data`; the statuses are `concerning` (participation),
`neutral` (sentiment), `concerning` (blockers) and `no_data` (work items),
and the results carry no `data_points` (or `last_updated`) key. -/
theorem empty_range_metric_sentinels (sessions : List Session) (proj : ℕ)
    (startD endD : ℤ)
    (h : range_sessions sessions proj startD endD = []) :
    get_participation_metrics sessions proj startD endD =
      { rate := 0, trend := "no_data", status := "concerning",
        dataPoints := none, lastUpdated := none } ∧
    get_sentiment_metrics sessions proj startD endD =
      { score := 0, trend := "no_data", status := "neutral",
        dataPoints := none, lastUpdated := none } ∧
    get_blocker_metrics sessions proj startD endD =
      { resolutionRate := 0, trend := "no_data", status := "concerning",
        dataPoints := none, lastUpdated := none } ∧
    get_work_item_metrics sessions proj startD endD =
      { completionRate := 0, trend := "no_data", status := "no_data",
        dataPoints := none, lastUpdated := none } := by
  refine ⟨?_, ?_, ?_, ?_⟩
  · rw [get_participation_metrics, h]; rfl
  · rw [get_sentiment_metrics, sentiment_sessions, h]; rfl
  · rw [get_blocker_metrics, h]; rfl
  · rw [get_work_item_metrics, range_work_items, h]; rfl

/-- C3 witness: the amended sentinel theorem at a concrete empty range. -/
theorem empty_range_metric_sentinels_witness :
    get_participation_metrics [] 0 0 7 =
      { rate := 0, trend := "no_data", status := "concerning",
        dataPoints := none, lastUpdated := none } ∧
    get_sentiment_metrics [] 0 0 7 =
      { score := 0, trend := "no_data", status := "neutral",
        dataPoints := none, lastUpdated := none } ∧
    get_blocker_metrics [] 0 0 7 =
      { resolutionRate := 0, trend := "no_data", status := "concerning",
        dataPoints := none, lastUpdated := none } ∧
    get_work_item_metrics [] 0 0 7 =
      { completionRate := 0, trend := "no_data", status := "no_data",
        dataPoints := none, lastUpdated := none } :=
  empty_range_metric_sentinels [] 0 0 7 rfl

/-! ## C2: range of the burnout score -/

/-- A 14-day history driving every burnout indicator at once: three
completed sessions with strongly negative sentiment, all blocked, all with
empty (hence low-quality) content, and far fewer than 8.4 sessions. -/
def burnoutHistory : List Session :=
  [mkSession (-1) "completed" (some (-0.5)) "api down",
   mkSession (-2) "completed" (some (-0.5)) "api down",
   mkSession (-3) "completed" (some (-0.5)) "api down"]

/-- C2 counterexample: a member history on which
`_calculate_burnout_score` returns 5, outside the claimed range [0,4]
(the source itself anticipates this: severity is critical when the score
reaches 5). -/
theorem burnout_score_five_cex :
    calculate_burnout_score burnoutHistory 0 = 5 ∧
    ¬ calculate_burnout_score burnoutHistory 0 ≤ 4 := by
  have hb : ¬ ("api down" = "") := by decide
  have h5 : calculate_burnout_score burnoutHistory 0 = 5 := by
    simp only [calculate_burnout_score, burnoutHistory]
    norm_num [List.filter, List.filterMap, listAvg, pyTruthy, hb,
      assess_content_quality_mkSession]
  exact ⟨h5, by omega⟩

/-- C2 (amended): for every team member and every possible 14-day session
history, `_calculate_burnout_score` returns an integer in the range [0,5]
(the sentiment indicator contributes 2 and the other three indicators 1
each, so 5, not 4, is the least upper bound). -/
theorem burnout_score_bounds (sessions : List Session) (today : ℤ) :
    calculate_burnout_score sessions today ≤ 5 := by
  simp only [calculate_burnout_score]
  split_ifs <;> omega

/-! ## C5: trend labels of the four metric calculators -/

/-- The count-based trend rule exactly as the claim states it for the
blocker calculator (the generic rule with the direction inverted). -/
def claim_inverted_count_trend (firstHalf secondHalf : ℕ) : String :=
  if firstHalf = 0 then "stable"
  else if (secondHalf : ℚ) > firstHalf * 1.1 then "declining"
  else if (secondHalf : ℚ) < firstHalf * 0.9 then "improving"
  else "stable"

/-- Four sentiment-bearing sessions: one early session scoring 0.9 and
three late sessions scoring 0.2. -/
def c5Sessions : List Session :=
  [mkSession 0 "completed" (some 0.9) "",
   mkSession 4 "completed" (some 0.2) "",
   mkSession 5 "completed" (some 0.2) "",
   mkSession 6 "completed" (some 0.2) ""]

/-- C5 counterexample: on `c5Sessions` over the range 0..7 the half-window
session counts are 1 and 3, so the claimed count-based rule says
`improving`, but the sentiment calculator compares half-window average
scores (0.9 against 0.2) and reports `declining`. -/
theorem sentiment_trend_not_count_based_cex :
    ((sentiment_sessions c5Sessions 0 0 7).filter
        (fun s => s.date < mid_date 0 7)).length = 1 ∧
    ((sentiment_sessions c5Sessions 0 0 7).filter
        (fun s => mid_date 0 7 ≤ s.date)).length = 3 ∧
    spec_count_trend 1 3 = "improving" ∧
    (get_sentiment_metrics c5Sessions 0 0 7).trend = "declining" := by
  refine ⟨rfl, rfl, ?_, ?_⟩
  · norm_num [spec_count_trend]
  · norm_num [get_sentiment_metrics, sentiment_sessions, range_sessions,
      mid_date, c5Sessions, mkSession, List.filter, List.filterMap]

/-- C5 (amended): split the range at its midpoint.  The participation and
work-item calculators label the trend from the raw half-window counts with
the 1.1/0.9 factors (stable when the first-half count is 0).  The blocker
calculator also uses counts of blocker sessions, inverted, but with 0.8
and 1.2 factors.  The sentiment calculator does not compare counts at all:
it compares the half-window average scores with 1.05/0.95 factors, the
second-half average defaulting to the first-half average when the second
half is empty. -/
theorem calculator_trend_rules (sessions : List Session) (proj : ℕ)
    (startD endD : ℤ) :
    (range_sessions sessions proj startD endD ≠ [] →
      (get_participation_metrics sessions proj startD endD).trend =
        spec_count_trend
          ((range_sessions sessions proj startD endD).filter
            (fun s => s.date < mid_date startD endD)).length
          ((range_sessions sessions proj startD endD).filter
            (fun s => mid_date startD endD ≤ s.date)).length) ∧
    (sentiment_sessions sessions proj startD endD ≠ [] →
      (get_sentiment_metrics sessions proj startD endD).trend =
        spec_average_trend
          (((sentiment_sessions sessions proj startD endD).filter
            (fun s => s.date < mid_date startD endD)).filterMap
              (fun s => s.sentimentScore))
          (((sentiment_sessions sessions proj startD endD).filter
            (fun s => mid_date startD endD ≤ s.date)).filterMap
              (fun s => s.sentimentScore))) ∧
    (range_sessions sessions proj startD endD ≠ [] →
      (get_blocker_metrics sessions proj startD endD).trend =
        spec_blocker_count_trend
          (((range_sessions sessions proj startD endD).filter
            (fun s => s.date < mid_date startD endD)).filter
              (fun s => s.blockers ≠ "")).length
          (((range_sessions sessions proj startD endD).filter
            (fun s => mid_date startD endD ≤ s.date)).filter
              (fun s => s.blockers ≠ "")).length) ∧
    (range_work_items sessions proj startD endD ≠ [] →
      (get_work_item_metrics sessions proj startD endD).trend =
        spec_count_trend
          ((range_work_items sessions proj startD endD).filter
            (fun it => it.1 < mid_date startD endD)).length
          ((range_work_items sessions proj startD endD).filter
            (fun it => mid_date startD endD ≤ it.1)).length) := by
  refine ⟨?_, ?_, ?_, ?_⟩
  · intro h
    rw [get_participation_metrics, spec_count_trend]
    rw [if_neg (by simpa [List.isEmpty_iff] using h)]
  · intro h
    rw [get_sentiment_metrics, spec_average_trend]
    rw [if_neg (by simpa [List.isEmpty_iff] using h)]
    rfl
  · intro h
    rw [get_blocker_metrics, spec_blocker_count_trend]
    rw [if_neg (by simpa [List.isEmpty_iff] using h)]
  · intro h
    rw [get_work_item_metrics, spec_count_trend]
    rw [if_neg (by simpa [List.isEmpty_iff] using h)]

/-- Build a session of project 0 / user 0 carrying work-item statuses. -/
def mkSessionW (d : ℤ) (st : String) (sc : Option ℚ) (blk : String)
    (items : List String) : Session :=
  { project := 0, user := 0, date := d, status := st, sentimentScore := sc,
    yesterdayWork := "", todayPlan := "", blockers := blk,
    workItems := items }

/-- Sessions exercising all four calculators at once: sentiment data,
blocker text and work items on both sides of the midpoint. -/
def c5WitnessSessions : List Session :=
  [mkSessionW 1 "completed" (some 0.5) "x" ["completed"],
   mkSessionW 5 "completed" (some 0.6) "y" ["active"]]

/-- C5 witness: the corrected trend rules at a concrete non-empty range. -/
theorem calculator_trend_rules_witness :
    ((get_participation_metrics c5WitnessSessions 0 0 7).trend =
      spec_count_trend
        ((range_sessions c5WitnessSessions 0 0 7).filter
          (fun s => s.date < mid_date 0 7)).length
        ((range_sessions c5WitnessSessions 0 0 7).filter
          (fun s => mid_date 0 7 ≤ s.date)).length) ∧
    ((get_sentiment_metrics c5WitnessSessions 0 0 7).trend =
      spec_average_trend
        (((sentiment_sessions c5WitnessSessions 0 0 7).filter
          (fun s => s.date < mid_date 0 7)).filterMap
            (fun s => s.sentimentScore))
        (((sentiment_sessions c5WitnessSessions 0 0 7).filter
          (fun s => mid_date 0 7 ≤ s.date)).filterMap
            (fun s => s.sentimentScore))) ∧
    ((get_blocker_metrics c5WitnessSessions 0 0 7).trend =
      spec_blocker_count_trend
        (((range_sessions c5WitnessSessions 0 0 7).filter
          (fun s => s.date < mid_date 0 7)).filter
            (fun s => s.blockers ≠ "")).length
        (((range_sessions c5WitnessSessions 0 0 7).filter
          (fun s => mid_date 0 7 ≤ s.date)).filter
            (fun s => s.blockers ≠ "")).length) ∧
    ((get_work_item_metrics c5WitnessSessions 0 0 7).trend =
      spec_count_trend
        ((range_work_items c5WitnessSessions 0 0 7).filter
          (fun it => it.1 < mid_date 0 7)).length
        ((range_work_items c5WitnessSessions 0 0 7).filter
          (fun it => mid_date 0 7 ≤ it.1)).length) := by
  obtain ⟨h1, h2, h3, h4⟩ := calculator_trend_rules c5WitnessSessions 0 0 7
  exact ⟨h1 (by decide), h2 (by decide), h3 (by decide), h4 (by decide)⟩

/-! ## C6: the volatile trend direction is unreachable -/

/-- A trend store holding one participation point of value 100 at day 0. -/
def trendStoreOne : List TrendPoint :=
  [{ project := 0, metricType := "participation", date := 0,
     currentValue := 100, previousValue := none, changePercentage := none,
     trendDirection := "stable", rollingAverage7d := none,
     rollingAverage30d := none }]

/-- C6 counterexample: recording value 120 after a prior value of 100
gives change_percentage 20, whose absolute value exceeds 15, yet the
stored trend_direction is `improving`, not `volatile` (the source tests
the +-5 branches first, so the volatile branch can never win). -/
theorem volatile_unreachable_cex :
    (calculate_trend trendStoreOne 0 "participation" 120 1).1.changePercentage
        = some 20 ∧
    |(20 : ℚ)| > 15 ∧
    (calculate_trend trendStoreOne 0 "participation" 120 1).1.trendDirection
        = "improving" ∧
    "improving" ≠ "volatile" := by
  refine ⟨?_, by norm_num, ?_, by decide⟩ <;>
    norm_num [calculate_trend, mostRecentBefore, trendStoreOne, List.filter]

/-- C6 (amended): when a prior point exists with nonzero current_value and
the change percentage has absolute value above 15, the stored
trend_direction is `improving` for a positive change and `declining` for a
negative one; it is never `volatile`, because the source checks the +-5
branches first and |change| > 15 always trips one of them. -/
theorem trend_direction_overrides_volatile (store : List TrendPoint)
    (proj : ℕ) (mt : String) (v : ℚ) (d : ℤ) (p : TrendPoint)
    (hp : mostRecentBefore store proj mt d = some p)
    (hp0 : p.currentValue ≠ 0)
    (h15 : |(v - p.currentValue) / p.currentValue * 100| > 15) :
    ((calculate_trend store proj mt v d).1.trendDirection =
      if (v - p.currentValue) / p.currentValue * 100 > 5 then "improving"
      else "declining") ∧
    (calculate_trend store proj mt v d).1.trendDirection ≠ "volatile" := by
  have hcase : 15 < (v - p.currentValue) / p.currentValue * 100 ∨
      15 < -((v - p.currentValue) / p.currentValue * 100) := lt_abs.mp h15
  simp only [calculate_trend, hp, Option.map_some']
  rw [if_pos hp0]
  rcases hcase with hpos | hneg
  · rw [if_pos (by linarith), if_pos (by linarith)]
    exact ⟨rfl, by decide⟩
  · have hgt5 : ¬ ((v - p.currentValue) / p.currentValue * 100 > 5) := by
      linarith
    have hlt5 : (v - p.currentValue) / p.currentValue * 100 < -5 := by
      linarith
    rw [if_neg hgt5, if_pos hlt5, if_neg hgt5]
    exact ⟨rfl, by decide⟩

/-- C6 witness: the amended direction rule at a concrete drop from 100 to
50 (change −50, magnitude above 15, direction declining). -/
theorem trend_direction_overrides_volatile_witness :
    ((calculate_trend trendStoreOne 0 "participation" 50 1).1.trendDirection =
      if ((50 : ℚ) - 100) / 100 * 100 > 5 then "improving"
      else "declining") ∧
    (calculate_trend trendStoreOne 0 "participation" 50 1).1.trendDirection
        ≠ "volatile" := by
  have hp : mostRecentBefore trendStoreOne 0 "participation" 1 =
      some { project := 0, metricType := "participation", date := 0,
             currentValue := 100, previousValue := none,
             changePercentage := none, trendDirection := "stable",
             rollingAverage7d := none, rollingAverage30d := none } := by
    norm_num [mostRecentBefore, trendStoreOne, List.filter]
  exact trend_direction_overrides_volatile trendStoreOne 0 "participation"
    50 1 _ hp (by norm_num) (by norm_num)

/-! ## C8: the composite health score -/

/-- Lower bound of the half-even rounding. -/
lemma roundHalfEven_nonneg {q : ℚ} (h : 0 ≤ q) : 0 ≤ roundHalfEven q := by
  have hf : (0 : ℤ) ≤ ⌊q⌋ := Int.floor_nonneg.mpr h
  simp only [roundHalfEven]
  split_ifs <;> omega

/-- Upper bound of the half-even rounding: an integer bound on the input
bounds the output. -/
lemma roundHalfEven_le {q : ℚ} {m : ℤ} (h : q ≤ m) : roundHalfEven q ≤ m := by
  have hf : ⌊q⌋ ≤ m := by
    have := Int.floor_le_floor h
    simpa using this
  simp only [roundHalfEven]
  split_ifs with h1 h2 h3
  · exact hf
  · have hlt : (⌊q⌋ : ℚ) < (m : ℚ) := by linarith
    have hm : ⌊q⌋ < m := by exact_mod_cast hlt
    omega
  · exact hf
  · have hge : q - ⌊q⌋ ≥ 1/2 := not_lt.mp h1
    have hlt : (⌊q⌋ : ℚ) < (m : ℚ) := by linarith
    have hm : ⌊q⌋ < m := by exact_mod_cast hlt
    omega

/-- Rounding `pyRound q 1` stays within [0, 100] when `q` does. -/
lemma pyRound_one_mem_Icc {q : ℚ} (h0 : 0 ≤ q) (h1 : q ≤ 100) :
    0 ≤ pyRound q 1 ∧ pyRound q 1 ≤ 100 := by
  have hn : 0 ≤ roundHalfEven (q * 10 ^ 1) :=
    roundHalfEven_nonneg (by positivity)
  have hl : roundHalfEven (q * 10 ^ 1) ≤ (1000 : ℤ) :=
    roundHalfEven_le (by push_cast; linarith)
  unfold pyRound
  constructor
  · positivity
  · rw [div_le_iff₀ (by norm_num)]
    calc (roundHalfEven (q * 10 ^ 1) : ℚ) ≤ (1000 : ℤ) := by exact_mod_cast hl
    _ = 100 * 10 ^ 1 := by norm_num

/-- Metric records with display value 33.3 for participation and 0 for the
other three metrics. -/
def participation333 : ParticipationMetrics :=
  { rate := 33.3, trend := "stable", status := "concerning",
    dataPoints := some 3, lastUpdated := some 7 }

/-- Zero-valued sentiment record. -/
def sentimentZero : SentimentMetrics :=
  { score := 0, trend := "stable", status := "concerning",
    dataPoints := some 3, lastUpdated := some 7 }

/-- Zero-valued blocker record. -/
def blockerZero : BlockerMetrics :=
  { resolutionRate := 0, trend := "stable", status := "concerning",
    dataPoints := some 3, lastUpdated := some 7 }

/-- Zero-valued work-item record. -/
def workItemZero : WorkItemMetrics :=
  { completionRate := 0, trend := "stable", status := "concerning",
    dataPoints := some 3, lastUpdated := some 7 }

/-- C8 counterexample: with display values (33.3, 0, 0, 0) the weighted
combination is 9.99, but the source rounds to one decimal and returns
10, so the returned score is not equal to the weighted combination. -/
theorem overall_health_score_rounds_cex :
    (calculate_overall_health_score participation333 sentimentZero
      blockerZero workItemZero).score = 10 ∧
    (33.3 * 0.3 + 0 * 0.25 + 0 * 0.25 + 0 * 0.2 : ℚ) = 999/100 ∧
    (10 : ℚ) ≠ 999/100 := by
  refine ⟨?_, by norm_num, by norm_num⟩
  norm_num [calculate_overall_health_score, participation333, sentimentZero,
    blockerZero, workItemZero, pyRound, roundHalfEven]

/-- C8 (amended): for display values in [0,100] the returned score is the
weighted combination participation*0.30 + sentiment*0.25 + blockers*0.25 +
work_items*0.20 rounded to one decimal, and it always lies in [0,100]. -/
theorem overall_health_score_weighted (p : ParticipationMetrics)
    (s : SentimentMetrics) (b : BlockerMetrics) (w : WorkItemMetrics)
    (hp0 : 0 ≤ p.rate) (hp1 : p.rate ≤ 100)
    (hs0 : 0 ≤ s.score) (hs1 : s.score ≤ 100)
    (hb0 : 0 ≤ b.resolutionRate) (hb1 : b.resolutionRate ≤ 100)
    (hw0 : 0 ≤ w.completionRate) (hw1 : w.completionRate ≤ 100) :
    (calculate_overall_health_score p s b w).score =
      pyRound (p.rate * 0.3 + s.score * 0.25 + b.resolutionRate * 0.25 +
        w.completionRate * 0.2) 1 ∧
    0 ≤ (calculate_overall_health_score p s b w).score ∧
    (calculate_overall_health_score p s b w).score ≤ 100 := by
  have hsum0 : 0 ≤ p.rate * 0.3 + s.score * 0.25 + b.resolutionRate * 0.25 +
      w.completionRate * 0.2 := by positivity
  have hsum1 : p.rate * 0.3 + s.score * 0.25 + b.resolutionRate * 0.25 +
      w.completionRate * 0.2 ≤ 100 := by nlinarith
  obtain ⟨hlo, hhi⟩ := pyRound_one_mem_Icc hsum0 hsum1
  refine ⟨?_, ?_, ?_⟩
  · simp [calculate_overall_health_score]
    ring_nf
  · simpa [calculate_overall_health_score, add_assoc] using hlo
  · simpa [calculate_overall_health_score, add_assoc] using hhi

/-- C8 witness: the amended statement at the concrete records
(33.3, 0, 0, 0). -/
theorem overall_health_score_weighted_witness :
    (calculate_overall_health_score participation333 sentimentZero
      blockerZero workItemZero).score =
      pyRound (participation333.rate * 0.3 + sentimentZero.score * 0.25 +
        blockerZero.resolutionRate * 0.25 +
        workItemZero.completionRate * 0.2) 1 ∧
    0 ≤ (calculate_overall_health_score participation333 sentimentZero
      blockerZero workItemZero).score ∧
    (calculate_overall_health_score participation333 sentimentZero
      blockerZero workItemZero).score ≤ 100 :=
  overall_health_score_weighted participation333 sentimentZero blockerZero
    workItemZero (by norm_num [participation333])
    (by norm_num [participation333]) (by norm_num [sentimentZero])
    (by norm_num [sentimentZero]) (by norm_num [blockerZero])
    (by norm_num [blockerZero]) (by norm_num [workItemZero])
    (by norm_num [workItemZero])

/-! ## C9: the trend slope on a linear series -/

/-- Pointwise products of two mapped lists. -/
lemma zipWith_mul_map (f g : ℕ → ℚ) (l : List ℕ) :
    List.zipWith (· * ·) (l.map f) (l.map g) = l.map fun i => f i * g i := by
  induction l with
  | nil => rfl
  | cons a t ih => simp [ih]

/-- Sum of an affine map over `range n` in closed form. -/
lemma sum_map_affine (a d : ℚ) (n : ℕ) :
    ((List.range n).map fun i : ℕ => a + d * (i : ℚ)).sum =
      n * a + d * (n * (n - 1) / 2) := by
  induction n with
  | zero => simp
  | succ m ih =>
    rw [List.range_succ, List.map_append, List.sum_append, ih]
    simp only [List.map_cons, List.map_nil, List.sum_cons, List.sum_nil]
    push_cast
    ring

/-- Sum of indices times an affine map over `range n` in closed form. -/
lemma sum_map_mul_affine (a d : ℚ) (n : ℕ) :
    ((List.range n).map fun i : ℕ => (i : ℚ) * (a + d * (i : ℚ))).sum =
      a * (n * (n - 1) / 2) + d * (n * (n - 1) * (2 * n - 1) / 6) := by
  induction n with
  | zero => simp
  | succ m ih =>
    rw [List.range_succ, List.map_append, List.sum_append, ih]
    simp only [List.map_cons, List.map_nil, List.sum_cons, List.sum_nil]
    push_cast
    ring

/-- Sum of the index casts over `range n` in closed form (Gauss). -/
lemma sum_range_cast_q (n : ℕ) :
    ((List.range n).map fun i : ℕ => (i : ℚ)).sum = n * (n - 1) / 2 := by
  induction n with
  | zero => simp
  | succ m ih =>
    rw [List.range_succ, List.map_append, List.sum_append, ih]
    simp only [List.map_cons, List.map_nil, List.sum_cons, List.sum_nil]
    push_cast
    ring

/-- Sum of squared index casts over `range n` in closed form. -/
lemma sum_range_sq_q (n : ℕ) :
    ((List.range n).map fun i : ℕ => (i : ℚ) * (i : ℚ)).sum =
      n * (n - 1) * (2 * n - 1) / 6 := by
  induction n with
  | zero => simp
  | succ m ih =>
    rw [List.range_succ, List.map_append, List.sum_append, ih]
    simp only [List.map_cons, List.map_nil, List.sum_cons, List.sum_nil]
    push_cast
    ring

/-- The least-squares slope of `y i = a + d * i` against indices `0..n-1`
is exactly `d` for every `n ≥ 2`. -/
lemma trend_slope_arith (a d : ℚ) (n : ℕ) (hn : 2 ≤ n) :
    calculate_trend_slope ((List.range n).map fun i : ℕ => (i : ℚ))
      ((List.range n).map fun i : ℕ => a + d * (i : ℚ)) = d := by
  have hn' : (2 : ℚ) ≤ (n : ℚ) := by exact_mod_cast hn
  rw [calculate_trend_slope,
    if_neg (by simp [List.length_map, List.length_range]; omega)]
  simp only [List.length_map, List.length_range, zipWith_mul_map,
    List.map_map, Function.comp_def]
  rw [sum_range_cast_q, sum_map_affine, sum_map_mul_affine, sum_range_sq_q]
  have hden : (n : ℚ) * ((n : ℚ) * ((n : ℚ) - 1) * (2 * (n : ℚ) - 1) / 6) -
      (n : ℚ) * ((n : ℚ) - 1) / 2 * ((n : ℚ) * ((n : ℚ) - 1) / 2) =
      (n : ℚ) ^ 2 * ((n : ℚ) ^ 2 - 1) / 12 := by ring
  have hpos : (0 : ℚ) < (n : ℚ) ^ 2 * ((n : ℚ) ^ 2 - 1) / 12 := by
    have h1 : (0 : ℚ) < (n : ℚ) ^ 2 := by nlinarith
    have h2 : (0 : ℚ) < (n : ℚ) ^ 2 - 1 := by nlinarith
    positivity
  rw [if_neg (by rw [hden]; exact ne_of_gt hpos), hden, div_eq_iff
    (ne_of_gt hpos)]
  ring

/-- C9: for every arithmetic progression `y i = a + d * i` of length
`n ≥ 2`, `_calculate_trend_slope` applied to the indices `0..n-1` and the
progression returns exactly `d` (exact rational arithmetic, so in
particular within any floating tolerance). -/
theorem trend_slope_linear_series (a d : ℚ) (n : ℕ) (hn : 2 ≤ n) :
    calculate_trend_slope ((List.range n).map fun i : ℕ => (i : ℚ))
      ((List.range n).map fun i : ℕ => a + d * (i : ℚ)) = d :=
  trend_slope_arith a d n hn

/-- C9 witness: the slope of the progression 5, 7, 9 is 2. -/
theorem trend_slope_linear_series_witness :
    calculate_trend_slope ((List.range 3).map fun i : ℕ => (i : ℚ))
      ((List.range 3).map fun i : ℕ => 5 + 2 * (i : ℚ)) = 2 :=
  trend_slope_linear_series 5 2 3 (by norm_num)

/-! ## C1: sentiment-decline check on uniformly low (0.2) scores -/

/-- A filterMap whose function is constantly `some c` on the list yields a
replicate. -/
lemma filterMap_const_some {α : Type} (l : List α) (f : α → Option ℚ)
    (c : ℚ) (h : ∀ x ∈ l, f x = some c) :
    l.filterMap f = List.replicate l.length c := by
  induction l with
  | nil => rfl
  | cons a t ih =>
    rw [List.filterMap_cons, h a (by simp), List.length_cons,
      List.replicate_succ]
    rw [ih fun x hx => h x (List.mem_cons_of_mem a hx)]

/-- The mean of `n` copies of `c` is `c`. -/
lemma listAvg_replicate (n : ℕ) (c : ℚ) (hn : n ≠ 0) :
    listAvg (List.replicate n c) = some c := by
  have hn' : (n : ℚ) ≠ 0 := Nat.cast_ne_zero.mpr hn
  rw [listAvg, if_neg (by simp [List.isEmpty_iff, hn]), List.sum_replicate,
    List.length_replicate, nsmul_eq_mul, mul_div_cancel_left₀ c hn']

/-- The alert row created by the medium-severity branch of the
sentiment-decline check on an empty store. -/
def mediumSentimentAlert (proj : ℕ) (now : ℚ) : HealthAlert :=
  { id := 0, project := proj, teamMember := none,
    alertType := "sentiment_decline", severity := "medium",
    status := "active", confidenceScore := 0, createdAt := now }

/-- Core computation behind C1: on uniformly-0.2 data the check fires the
medium trend branch and a repeat run within 24 hours is a duplicate. -/
lemma sentiment_decline_low_aux (sessions : List Session) (proj : ℕ)
    (today : ℤ) (now1 now2 : ℚ) (hrep : now2 - 24 ≤ now1)
    (h5 : 5 ≤ (recent_sentiment_sessions sessions proj today).length)
    (hall : ∀ s ∈ recent_sentiment_sessions sessions proj today,
      s.sentimentScore = some 0.2)
    (hold : ∃ s ∈ recent_sentiment_sessions sessions proj today,
      s.date < today - 14 + 7)
    (hnew : ∃ s ∈ recent_sentiment_sessions sessions proj today,
      today - 14 + 7 ≤ s.date) :
    check_sentiment_decline sessions proj today ⟨[], 0⟩ now1 =
      ([.created 0 "medium" 0], ⟨[mediumSentimentAlert proj now1], 1⟩) ∧
    (check_sentiment_decline sessions proj today
      ⟨[mediumSentimentAlert proj now1], 1⟩ now2).1 = [.duplicate 0] := by
  set R := recent_sentiment_sessions sessions proj today with hR
  have hRlen : R.length ≠ 0 := by omega
  have havg : listAvg (R.filterMap fun s => s.sentimentScore) = some 0.2 := by
    rw [filterMap_const_some R _ 0.2 hall, listAvg_replicate _ _ hRlen]
  have holder : listAvg ((R.filter fun s =>
      decide (s.date < today - 14 + 7)).filterMap fun s =>
        s.sentimentScore) = some 0.2 := by
    obtain ⟨s, hsR, hsd⟩ := hold
    have hmem : s ∈ R.filter fun s => decide (s.date < today - 14 + 7) :=
      List.mem_filter.mpr ⟨hsR, by simpa using hsd⟩
    rw [filterMap_const_some _ _ 0.2
      (fun x hx => hall x (List.mem_of_mem_filter hx))]
    exact listAvg_replicate _ _ (by
      intro hc
      rw [List.length_eq_zero] at hc
      simp [hc] at hmem)
  have hnewer : listAvg ((R.filter fun s =>
      decide (today - 14 + 7 ≤ s.date)).filterMap fun s =>
        s.sentimentScore) = some 0.2 := by
    obtain ⟨s, hsR, hsd⟩ := hnew
    have hmem : s ∈ R.filter fun s => decide (today - 14 + 7 ≤ s.date) :=
      List.mem_filter.mpr ⟨hsR, by simpa using hsd⟩
    rw [filterMap_const_some _ _ 0.2
      (fun x hx => hall x (List.mem_of_mem_filter hx))]
    exact listAvg_replicate _ _ (by
      intro hc
      rw [List.length_eq_zero] at hc
      simp [hc] at hmem)
  have hnotlow : ¬ (pyTruthy (some (0.2 : ℚ)) ∧
      (some (0.2 : ℚ)).getD 0 < SENTIMENT_DECLINE_THRESHOLD) := by
    norm_num [pyTruthy, SENTIMENT_DECLINE_THRESHOLD]
  have htrend : pyTruthy (some (0.2 : ℚ)) ∧ pyTruthy (some (0.2 : ℚ)) ∧
      (some (0.2 : ℚ)).getD 0 <
        (some (0.2 : ℚ)).getD 0 - SENTIMENT_TREND_THRESHOLD := by
    norm_num [pyTruthy, SENTIMENT_TREND_THRESHOLD]
  constructor
  · rw [check_sentiment_decline, ← hR, if_neg (by omega)]
    simp only [havg, holder, hnewer]
    rw [if_neg hnotlow, if_pos htrend]
    simp only [create_alert, List.find?_nil, Option.getD_some]
    norm_num [mediumSentimentAlert]
  · rw [check_sentiment_decline, ← hR, if_neg (by omega)]
    simp only [havg, holder, hnewer]
    rw [if_neg hnotlow, if_pos htrend]
    have hpred : dedupPred proj "sentiment_decline" now2
        { id := 0, project := proj, teamMember := none,
          alertType := "sentiment_decline", severity := "medium",
          status := "active", confidenceScore := 0,
          createdAt := now1 } = true := by
      simp [dedupPred, ge_iff_le, hrep]
    simp [create_alert, mediumSentimentAlert, hpred]

/-- C1 (amended): with at least 5 completed recent sessions all carrying
sentiment_score 0.2 and data on both sides of the midpoint,
`_check_sentiment_decline` does create a `sentiment_decline` alert, but
with severity `medium` and confidence 0, through the declining-trend
branch: since SENTIMENT_TREND_THRESHOLD is −0.2, that branch compares the
newer-half average against the older-half average plus 0.2 and therefore
fires even though both averages are equal.  The absolutely-low branch
(severity critical/high) cannot fire, because 0.2 is not below the −0.3
threshold.  A repeat run within 24 hours reports the alert as a duplicate. -/
theorem sentiment_decline_uniform_low (sessions : List Session) (proj : ℕ)
    (today : ℤ) (now1 now2 : ℚ) (hrep : now2 - 24 ≤ now1)
    (h5 : 5 ≤ (recent_sentiment_sessions sessions proj today).length)
    (hall : ∀ s ∈ recent_sentiment_sessions sessions proj today,
      s.sentimentScore = some 0.2)
    (hold : ∃ s ∈ recent_sentiment_sessions sessions proj today,
      s.date < today - 14 + 7)
    (hnew : ∃ s ∈ recent_sentiment_sessions sessions proj today,
      today - 14 + 7 ≤ s.date) :
    check_sentiment_decline sessions proj today ⟨[], 0⟩ now1 =
      ([.created 0 "medium" 0], ⟨[mediumSentimentAlert proj now1], 1⟩) ∧
    (check_sentiment_decline sessions proj today
      ⟨[mediumSentimentAlert proj now1], 1⟩ now2).1 = [.duplicate 0] :=
  sentiment_decline_low_aux sessions proj today now1 now2 hrep h5 hall
    hold hnew

/-- The scenario of the claim: 10 sessions dated in the 14 days before
day 14, of which 8 are completed with sentiment_score 0.2 (four in each
half-window) and 2 are pending without scores. -/
def c1Sessions : List Session :=
  [mkSession 1 "completed" (some 0.2) "",
   mkSession 2 "completed" (some 0.2) "",
   mkSession 3 "completed" (some 0.2) "",
   mkSession 4 "completed" (some 0.2) "",
   mkSession 10 "completed" (some 0.2) "",
   mkSession 11 "completed" (some 0.2) "",
   mkSession 12 "completed" (some 0.2) "",
   mkSession 13 "completed" (some 0.2) "",
   mkSession 5 "pending" none "",
   mkSession 6 "pending" none ""]

/-- Every session the check selects from `c1Sessions` scores 0.2. -/
lemma c1Sessions_all_low :
    ∀ s ∈ recent_sentiment_sessions c1Sessions 0 14,
      s.sentimentScore = some 0.2 := by
  intro s hs
  have h1 := List.mem_of_mem_filter hs
  have h2 := (List.mem_filter.mp hs).2
  simp only [c1Sessions, List.mem_cons, List.not_mem_nil, or_false] at h1
  rcases h1 with h | h | h | h | h | h | h | h | h | h <;> subst h <;>
    first
      | rfl
      | (exfalso; revert h2; decide)

/-- The session of day 1 is selected by the check on `c1Sessions`. -/
lemma c1Sessions_mem_early :
    mkSession 1 "completed" (some 0.2) "" ∈
      recent_sentiment_sessions c1Sessions 0 14 :=
  List.mem_filter.mpr ⟨by simp [c1Sessions], by decide⟩

/-- The session of day 10 is selected by the check on `c1Sessions`. -/
lemma c1Sessions_mem_late :
    mkSession 10 "completed" (some 0.2) "" ∈
      recent_sentiment_sessions c1Sessions 0 14 :=
  List.mem_filter.mpr ⟨by simp [c1Sessions], by decide⟩

/-- C1 counterexample: on the claimed scenario the single alert produced
by `_check_sentiment_decline` has severity `medium`, not `critical` or
`high`, refuting the claimed severity. -/
theorem sentiment_decline_severity_cex :
    (check_sentiment_decline c1Sessions 0 14 ⟨[], 0⟩ 100).1 =
      [.created 0 "medium" 0] ∧
    "medium" ≠ "critical" ∧ "medium" ≠ "high" := by
  refine ⟨?_, by decide, by decide⟩
  have h := sentiment_decline_low_aux c1Sessions 0 14 100 100
    (by norm_num) (by decide) c1Sessions_all_low
    ⟨mkSession 1 "completed" (some 0.2) "", c1Sessions_mem_early, by decide⟩
    ⟨mkSession 10 "completed" (some 0.2) "", c1Sessions_mem_late, by decide⟩
  rw [h.1]

/-- C1 witness: the amended scenario theorem at the concrete session list,
with the second run 10 hours after the first. -/
theorem sentiment_decline_uniform_low_witness :
    check_sentiment_decline c1Sessions 0 14 ⟨[], 0⟩ 100 =
      ([.created 0 "medium" 0], ⟨[mediumSentimentAlert 0 100], 1⟩) ∧
    (check_sentiment_decline c1Sessions 0 14
      ⟨[mediumSentimentAlert 0 100], 1⟩ 110).1 = [.duplicate 0] :=
  sentiment_decline_uniform_low c1Sessions 0 14 100 110 (by norm_num)
    (by decide) c1Sessions_all_low
    ⟨mkSession 1 "completed" (some 0.2) "", c1Sessions_mem_early, by decide⟩
    ⟨mkSession 10 "completed" (some 0.2) "", c1Sessions_mem_late, by decide⟩

/-! ## C7: idempotency of the TrendPoint upsert -/

/-- Replacing the key-matching rows of a list by `pt` does not change a
filter that rejects both `pt` and every key-matching row. -/
lemma filter_map_replace (l : List TrendPoint) (pt : TrendPoint)
    (p : TrendPoint → Bool) (hpt : p pt = false)
    (hkey : ∀ x, trendKey x pt.project pt.metricType pt.date → p x = false) :
    (l.map fun x =>
      if trendKey x pt.project pt.metricType pt.date then pt else x).filter
        p = l.filter p := by
  induction l with
  | nil => rfl
  | cons a t ih =>
    rw [List.map_cons]
    by_cases hk : trendKey a pt.project pt.metricType pt.date
    · rw [if_pos hk]
      simp [List.filter_cons, hpt, hkey a hk, ih]
    · rw [if_neg hk]
      simp [List.filter_cons, ih]

/-- An upsert of a row with the key (project, metric_type, date) does not
change any filter that rejects rows of that key. -/
lemma filter_upsert_excluded (store : List TrendPoint) (pt : TrendPoint)
    (p : TrendPoint → Bool) (hpt : p pt = false)
    (hkey : ∀ x, trendKey x pt.project pt.metricType pt.date → p x = false) :
    (upsertTrendPoint store pt).filter p = store.filter p := by
  unfold upsertTrendPoint
  by_cases h : store.any fun x =>
    decide (trendKey x pt.project pt.metricType pt.date)
  · rw [if_pos h]
    exact filter_map_replace store pt p hpt hkey
  · rw [if_neg h]
    simp [List.filter_cons, hpt]

/-- The strictly-before lookup is unchanged by upserting a row at the
lookup date. -/
lemma mostRecentBefore_upsert (store : List TrendPoint) (pt : TrendPoint)
    (proj : ℕ) (mt : String) (d : ℤ) (hp : pt.project = proj)
    (hm : pt.metricType = mt) (hd : pt.date = d) :
    mostRecentBefore (upsertTrendPoint store pt) proj mt d =
      mostRecentBefore store proj mt d := by
  subst hp hm hd
  unfold mostRecentBefore
  rw [filter_upsert_excluded]
  · simp
  · intro x hx
    simp only [trendKey] at hx
    simp [hx.1, hx.2.1, hx.2.2]

/-- The rolling-average windows (which end strictly before the upsert
date) are unchanged by the upsert. -/
lemma filter_window_upsert (store : List TrendPoint) (pt : TrendPoint)
    (proj : ℕ) (mt : String) (a d : ℤ) (hp : pt.project = proj)
    (hm : pt.metricType = mt) (hd : pt.date = d) :
    (upsertTrendPoint store pt).filter (fun x =>
      decide (x.project = proj ∧ x.metricType = mt ∧ a ≤ x.date ∧
        x.date < d)) =
    store.filter (fun x =>
      decide (x.project = proj ∧ x.metricType = mt ∧ a ≤ x.date ∧
        x.date < d)) := by
  subst hp hm hd
  rw [filter_upsert_excluded]
  · simp
  · intro x hx
    simp only [trendKey] at hx
    simp [hx.1, hx.2.1, hx.2.2]

/-- When the key occurs at most once, the rows of the key after an upsert
are exactly the single upserted row (map case). -/
lemma filter_map_replace_key (l : List TrendPoint) (pt : TrendPoint)
    (h1 : (l.filter fun x =>
      decide (trendKey x pt.project pt.metricType pt.date)).length ≤ 1)
    (h : l.any (fun x =>
      decide (trendKey x pt.project pt.metricType pt.date)) = true) :
    (l.map fun x =>
      if trendKey x pt.project pt.metricType pt.date then pt else x).filter
        (fun x => decide (trendKey x pt.project pt.metricType pt.date)) =
      [pt] := by
  have hptkey : trendKey pt pt.project pt.metricType pt.date := ⟨rfl, rfl, rfl⟩
  induction l with
  | nil => simp at h
  | cons a t ih =>
    rw [List.map_cons]
    by_cases hk : trendKey a pt.project pt.metricType pt.date
    · have hcons : (List.filter (fun x =>
          decide (trendKey x pt.project pt.metricType pt.date))
            (a :: t)).length =
          (List.filter (fun x =>
            decide (trendKey x pt.project pt.metricType pt.date)) t).length
              + 1 := by
        simp [List.filter_cons, hk]
      have ht0 : (t.filter fun x =>
          decide (trendKey x pt.project pt.metricType pt.date)) = [] :=
        List.length_eq_zero.mp (by omega)
      have hnone : ∀ x ∈ t,
          ¬ trendKey x pt.project pt.metricType pt.date := by
        intro x hx hc
        have hmem : x ∈ t.filter fun x =>
            decide (trendKey x pt.project pt.metricType pt.date) :=
          List.mem_filter.mpr ⟨hx, by simpa using hc⟩
        simp [ht0] at hmem
      have hmap : (t.map fun x =>
          if trendKey x pt.project pt.metricType pt.date then pt else x) =
          t := by
        rw [List.map_eq_map_iff.mpr, List.map_id]
        intro x hx
        simp [if_neg (hnone x hx)]
      rw [if_pos hk, hmap]
      simp [List.filter_cons, hptkey, ht0]
    · have h1t : (t.filter fun x =>
          decide (trendKey x pt.project pt.metricType pt.date)).length ≤
            1 := by
        have : (List.filter (fun x =>
            decide (trendKey x pt.project pt.metricType pt.date))
              (a :: t)) =
            List.filter (fun x =>
              decide (trendKey x pt.project pt.metricType pt.date)) t := by
          simp [List.filter_cons, hk]
        rw [this] at h1
        exact h1
      have ht : t.any (fun x =>
          decide (trendKey x pt.project pt.metricType pt.date)) = true := by
        rcases List.any_eq_true.mp h with ⟨x, hx, hpx⟩
        rcases List.mem_cons.mp hx with rfl | hxt
        · simp [hk] at hpx
        · exact List.any_eq_true.mpr ⟨x, hxt, hpx⟩
      rw [if_neg hk]
      have hskip : List.filter (fun x =>
          decide (trendKey x pt.project pt.metricType pt.date))
            (a :: (t.map fun x =>
              if trendKey x pt.project pt.metricType pt.date then pt
              else x)) =
          List.filter (fun x =>
            decide (trendKey x pt.project pt.metricType pt.date))
              (t.map fun x =>
                if trendKey x pt.project pt.metricType pt.date then pt
                else x) := by
        simp [List.filter_cons, hk]
      rw [hskip]
      exact ih h1t ht

/-- When the key occurs at most once in the store, the rows of that key
after an upsert are exactly the upserted row. -/
lemma upsert_filter_key (store : List TrendPoint) (pt : TrendPoint)
    (proj : ℕ) (mt : String) (d : ℤ) (hp : pt.project = proj)
    (hm : pt.metricType = mt) (hd : pt.date = d)
    (h1 : (store.filter fun x =>
      decide (trendKey x proj mt d)).length ≤ 1) :
    (upsertTrendPoint store pt).filter
      (fun x => decide (trendKey x proj mt d)) = [pt] := by
  subst hp hm hd
  have hptkey : trendKey pt pt.project pt.metricType pt.date := ⟨rfl, rfl, rfl⟩
  unfold upsertTrendPoint
  by_cases h : store.any fun x =>
    decide (trendKey x pt.project pt.metricType pt.date)
  · rw [if_pos h]
    exact filter_map_replace_key store pt h1 h
  · rw [if_neg h]
    have hnone : (store.filter fun x =>
        decide (trendKey x pt.project pt.metricType pt.date)) = [] := by
      rw [List.filter_eq_nil_iff]
      intro x hx hc
      exact (List.any_eq_true.not.mp h) ⟨x, hx, by simpa using hc⟩
    simp [List.filter_cons, hptkey, hnone]

/-- Lemma `mostRecentBefore_upsert` specialised to a literal row, in a shape
`rw` can match. -/
lemma mostRecentBefore_upsert_mk (store : List TrendPoint) (proj : ℕ)
    (mt : String) (d : ℤ) (cv : ℚ) (pv cp : Option ℚ) (td : String)
    (r7 r30 : Option ℚ) :
    mostRecentBefore
      (upsertTrendPoint store ⟨proj, mt, d, cv, pv, cp, td, r7, r30⟩)
      proj mt d = mostRecentBefore store proj mt d :=
  mostRecentBefore_upsert store _ proj mt d rfl rfl rfl

/-- Lemma `filter_window_upsert` specialised to a literal row. -/
lemma filter_window_upsert_mk (store : List TrendPoint) (proj : ℕ)
    (mt : String) (a d : ℤ) (cv : ℚ) (pv cp : Option ℚ) (td : String)
    (r7 r30 : Option ℚ) :
    (upsertTrendPoint store ⟨proj, mt, d, cv, pv, cp, td, r7, r30⟩).filter
      (fun x => decide (x.project = proj ∧ x.metricType = mt ∧
        a ≤ x.date ∧ x.date < d)) =
    store.filter (fun x => decide (x.project = proj ∧ x.metricType = mt ∧
      a ≤ x.date ∧ x.date < d)) :=
  filter_window_upsert store _ proj mt a d rfl rfl rfl

/-- C7: `calculate_trend` is idempotent.  Calling it twice with identical
(project, metric_type, current_value, date) leaves exactly one TrendPoint
for that key, the recomputed row equals the first row (same
current_value), and its previous_value is the current_value of the most
recent point of the original store dated strictly before the given date —
the strictly-before lookup never sees the row written by the first call. -/
theorem calculate_trend_idempotent (store : List TrendPoint) (proj : ℕ)
    (mt : String) (v : ℚ) (d : ℤ)
    (huniq : (store.filter fun x =>
      decide (trendKey x proj mt d)).length ≤ 1) :
    (calculate_trend store proj mt v d).1.currentValue = v ∧
    (calculate_trend (calculate_trend store proj mt v d).2 proj mt v d).1 =
      (calculate_trend store proj mt v d).1 ∧
    ((calculate_trend (calculate_trend store proj mt v d).2 proj mt v
        d).2.filter fun x => decide (trendKey x proj mt d)) =
      [(calculate_trend store proj mt v d).1] ∧
    (calculate_trend store proj mt v d).1.previousValue =
      (mostRecentBefore store proj mt d).map fun p => p.currentValue := by
  have hB : (calculate_trend (calculate_trend store proj mt v d).2 proj mt
      v d).1 = (calculate_trend store proj mt v d).1 := by
    simp only [calculate_trend]
    rw [mostRecentBefore_upsert_mk, filter_window_upsert_mk,
      filter_window_upsert_mk]
  have hfilter1 : ((calculate_trend store proj mt v d).2.filter fun x =>
      decide (trendKey x proj mt d)) =
      [(calculate_trend store proj mt v d).1] := by
    simp only [calculate_trend]
    exact upsert_filter_key _ _ _ _ _ rfl rfl rfl huniq
  have h1' : ((calculate_trend store proj mt v d).2.filter fun x =>
      decide (trendKey x proj mt d)).length ≤ 1 := by
    rw [hfilter1]
    simp
  have hC : ((calculate_trend (calculate_trend store proj mt v d).2 proj mt
      v d).2.filter fun x => decide (trendKey x proj mt d)) =
      [(calculate_trend store proj mt v d).1] := by
    show (upsertTrendPoint (calculate_trend store proj mt v d).2
      (calculate_trend (calculate_trend store proj mt v d).2 proj mt v
        d).1).filter (fun x => decide (trendKey x proj mt d)) =
      [(calculate_trend store proj mt v d).1]
    rw [hB]
    exact upsert_filter_key _ _ _ _ _ rfl rfl rfl h1'
  exact ⟨rfl, hB, hC, rfl⟩

/-- A one-point store for the idempotency witness. -/
def c7Store : List TrendPoint :=
  [{ project := 0, metricType := "sentiment", date := 0,
     currentValue := 50, previousValue := none, changePercentage := none,
     trendDirection := "stable", rollingAverage7d := none,
     rollingAverage30d := none }]

/-- C7 witness: recording value 60 at day 3 twice over `c7Store`. -/
theorem calculate_trend_idempotent_witness :
    (calculate_trend c7Store 0 "sentiment" 60 3).1.currentValue = 60 ∧
    (calculate_trend (calculate_trend c7Store 0 "sentiment" 60 3).2 0
      "sentiment" 60 3).1 = (calculate_trend c7Store 0 "sentiment" 60 3).1 ∧
    ((calculate_trend (calculate_trend c7Store 0 "sentiment" 60 3).2 0
      "sentiment" 60 3).2.filter fun x =>
        decide (trendKey x 0 "sentiment" 3)) =
      [(calculate_trend c7Store 0 "sentiment" 60 3).1] ∧
    (calculate_trend c7Store 0 "sentiment" 60 3).1.previousValue =
      (mostRecentBefore c7Store 0 "sentiment" 3).map fun p =>
        p.currentValue :=
  calculate_trend_idempotent c7Store 0 "sentiment" 60 3 (by decide)

/-! ## C10: burnout alerts deduplicate on (project, alert_type) only -/

/-- Once the store holds an alert matching the dedup filter, every further
qualifying member only appends a duplicate of it and the store is
unchanged. -/
lemma burnout_fold_dup (members : List Member) (proj : ℕ) (today : ℤ)
    (now : ℚ) (st : AlertStore) (a : HealthAlert)
    (hfind : st.alerts.find?
      (dedupPred proj "team_member_burnout" now) = some a)
    (acc : List AlertOutcome) :
    members.foldl (burnout_step proj today now) (acc, st) =
      (acc ++ (members.filter fun m =>
        decide (BURNOUT_INDICATOR_THRESHOLD ≤
          calculate_burnout_score m.sessions today)).map
            (fun _ => AlertOutcome.duplicate a.id), st) := by
  induction members generalizing acc with
  | nil => simp
  | cons m ms ih =>
    rw [List.foldl_cons]
    by_cases hq : BURNOUT_INDICATOR_THRESHOLD ≤
        calculate_burnout_score m.sessions today
    · have hstep : burnout_step proj today now (acc, st) m =
          (acc ++ [AlertOutcome.duplicate a.id], st) := by
        rw [burnout_step]
        simp only [if_pos hq, create_alert, hfind]
      rw [hstep, ih]
      simp [List.filter_cons, hq]
    · have hstep : burnout_step proj today now (acc, st) m = (acc, st) := by
        rw [burnout_step]
        simp only [if_neg hq]
      rw [hstep, ih]
      simp [List.filter_cons, hq]

/-- The alert row created for the first qualifying member. -/
def burnoutAlertRow (proj : ℕ) (now : ℚ) (store : AlertStore) (today : ℤ)
    (m0 : Member) : HealthAlert :=
  { id := store.nextId, project := proj, teamMember := some m0.id,
    alertType := "team_member_burnout",
    severity := if 5 ≤ calculate_burnout_score m0.sessions today
      then "critical" else "high",
    status := "active",
    confidenceScore :=
      min 1 ((calculate_burnout_score m0.sessions today : ℚ) / 5),
    createdAt := now }

/-- Core run of the burnout check when no matching alert pre-exists: one
alert for the first qualifying member, duplicates for all later ones. -/
lemma burnout_run_eq (members : List Member) (proj : ℕ) (today : ℤ)
    (store : AlertStore) (now : ℚ) (m0 : Member) (rest : List Member)
    (hclean : store.alerts.find?
      (dedupPred proj "team_member_burnout" now) = none)
    (hqual : members.filter (fun m =>
      decide (BURNOUT_INDICATOR_THRESHOLD ≤
        calculate_burnout_score m.sessions today)) = m0 :: rest) :
    check_team_member_burnout members proj today store now =
      (AlertOutcome.created store.nextId
          (if 5 ≤ calculate_burnout_score m0.sessions today
            then "critical" else "high")
          (min 1 ((calculate_burnout_score m0.sessions today : ℚ) / 5)) ::
        rest.map (fun _ => AlertOutcome.duplicate store.nextId),
       ⟨burnoutAlertRow proj now store today m0 :: store.alerts,
        store.nextId + 1⟩) := by
  induction members with
  | nil => simp at hqual
  | cons m ms ih =>
    rw [check_team_member_burnout, List.foldl_cons]
    by_cases hq : BURNOUT_INDICATOR_THRESHOLD ≤
        calculate_burnout_score m.sessions today
    · have hm : m = m0 ∧ (ms.filter fun m =>
          decide (BURNOUT_INDICATOR_THRESHOLD ≤
            calculate_burnout_score m.sessions today)) = rest := by
        rw [List.filter_cons] at hqual
        simp only [hq, decide_eq_true_eq, if_pos] at hqual
        exact ⟨(List.cons.injEq _ _ _ _ ▸ hqual).1,
          (List.cons.injEq _ _ _ _ ▸ hqual).2⟩
      obtain ⟨rfl, hrest⟩ := hm
      have hstep : burnout_step proj today now (([] : List AlertOutcome),
          store) m =
          ([AlertOutcome.created store.nextId
            (if 5 ≤ calculate_burnout_score m.sessions today
              then "critical" else "high")
            (min 1 ((calculate_burnout_score m.sessions today : ℚ) / 5))],
           ⟨burnoutAlertRow proj now store today m :: store.alerts,
            store.nextId + 1⟩) := by
        rw [burnout_step]
        simp only [if_pos hq, create_alert, hclean]
        rfl
      rw [hstep]
      have hfind2 : (burnoutAlertRow proj now store today m ::
          store.alerts).find?
            (dedupPred proj "team_member_burnout" now) =
          some (burnoutAlertRow proj now store today m) := by
        apply List.find?_cons_of_pos
        simp [dedupPred, burnoutAlertRow, ge_iff_le]
      have := burnout_fold_dup ms proj today now
        ⟨burnoutAlertRow proj now store today m :: store.alerts,
         store.nextId + 1⟩
        (burnoutAlertRow proj now store today m) hfind2
        [AlertOutcome.created store.nextId
          (if 5 ≤ calculate_burnout_score m.sessions today
            then "critical" else "high")
          (min 1 ((calculate_burnout_score m.sessions today : ℚ) / 5))]
      rw [this, hrest]
      simp [burnoutAlertRow]
    · have hqual2 : (ms.filter fun m =>
          decide (BURNOUT_INDICATOR_THRESHOLD ≤
            calculate_burnout_score m.sessions today)) = m0 :: rest := by
        rw [List.filter_cons] at hqual
        simpa [hq] using hqual
      have hstep : burnout_step proj today now (([] : List AlertOutcome),
          store) m = ([], store) := by
        rw [burnout_step]
        simp only [if_neg hq]
      rw [hstep]
      exact ih hqual2

/-- C10: alert deduplication keys on (project, alert_type) only and
ignores team_member.  If at least two members qualify (burnout score at
or above the threshold) and no matching active alert exists in the past
24 hours, one run of the burnout check creates a single HealthAlert for
the first qualifying member and reports every later qualifying member as
a duplicate of it, leaving exactly one active team_member_burnout alert
for the project within the 24-hour window. -/
theorem burnout_alert_dedup_per_project (members : List Member) (proj : ℕ)
    (today : ℤ) (store : AlertStore) (now : ℚ) (m0 : Member)
    (rest : List Member)
    (hclean : store.alerts.find?
      (dedupPred proj "team_member_burnout" now) = none)
    (hqual : members.filter (fun m =>
      decide (BURNOUT_INDICATOR_THRESHOLD ≤
        calculate_burnout_score m.sessions today)) = m0 :: rest)
    (htwo : rest ≠ []) :
    check_team_member_burnout members proj today store now =
      (AlertOutcome.created store.nextId
          (if 5 ≤ calculate_burnout_score m0.sessions today
            then "critical" else "high")
          (min 1 ((calculate_burnout_score m0.sessions today : ℚ) / 5)) ::
        rest.map (fun _ => AlertOutcome.duplicate store.nextId),
       ⟨burnoutAlertRow proj now store today m0 :: store.alerts,
        store.nextId + 1⟩) ∧
    ((check_team_member_burnout members proj today store
        now).2.alerts.filter
      (dedupPred proj "team_member_burnout" now)).length = 1 := by
  have h1 := burnout_run_eq members proj today store now m0 rest hclean
    hqual
  refine ⟨h1, ?_⟩
  rw [h1]
  have hrow : dedupPred proj "team_member_burnout" now
      (burnoutAlertRow proj now store today m0) = true := by
    simp [dedupPred, burnoutAlertRow, ge_iff_le]
  have hnil : store.alerts.filter
      (dedupPred proj "team_member_burnout" now) = [] := by
    rw [List.filter_eq_nil_iff]
    intro x hx hc
    exact (List.find?_eq_none.mp hclean x hx) hc
  simp [List.filter_cons, hrow, hnil]

/-- A member history hitting every burnout indicator (score 5). -/
def burnoutTeamSessions : List Session :=
  [mkSession (-1) "completed" (some (-0.5)) "ci broken",
   mkSession (-2) "completed" (some (-0.5)) "ci broken",
   mkSession (-3) "completed" (some (-0.5)) "ci broken"]

/-- First burned-out member. -/
def burnoutMemberA : Member := ⟨1, burnoutTeamSessions⟩

/-- Second burned-out member. -/
def burnoutMemberB : Member := ⟨2, burnoutTeamSessions⟩

/-- C10 witness: two simultaneously burned-out members of one project; a
single run creates one critical alert for member 1 and reports member 2
as a duplicate, and exactly one matching alert row exists afterwards. -/
theorem burnout_alert_dedup_per_project_witness :
    check_team_member_burnout [burnoutMemberA, burnoutMemberB] 0 0
      ⟨[], 0⟩ 100 =
      ([AlertOutcome.created 0 "critical" 1, AlertOutcome.duplicate 0],
       ⟨[burnoutAlertRow 0 100 ⟨[], 0⟩ 0 burnoutMemberA], 1⟩) ∧
    ((check_team_member_burnout [burnoutMemberA, burnoutMemberB] 0 0
        ⟨[], 0⟩ 100).2.alerts.filter
      (dedupPred 0 "team_member_burnout" 100)).length = 1 := by
  have hb : ¬ ("ci broken" = "") := by decide
  have hscore : calculate_burnout_score burnoutTeamSessions 0 = 5 := by
    simp only [calculate_burnout_score, burnoutTeamSessions]
    norm_num [List.filter, List.filterMap, listAvg, pyTruthy, hb,
      assess_content_quality_mkSession]
  have hqual : ([burnoutMemberA, burnoutMemberB].filter (fun m =>
      decide (BURNOUT_INDICATOR_THRESHOLD ≤
        calculate_burnout_score m.sessions 0))) =
      burnoutMemberA :: [burnoutMemberB] := by
    simp [List.filter_cons, burnoutMemberA, burnoutMemberB, hscore,
      BURNOUT_INDICATOR_THRESHOLD]
  have h := burnout_alert_dedup_per_project
    [burnoutMemberA, burnoutMemberB] 0 0 ⟨[], 0⟩ 100 burnoutMemberA
    [burnoutMemberB] rfl hqual (by simp)
  refine ⟨?_, h.2⟩
  rw [h.1]
  norm_num [burnoutMemberA, hscore]

/-! ## C4: sentiment prediction on a linearly increasing series -/

/-- The least-squares slope of eight equally spaced values with common
difference `d` against indices 0..7 is `d`. -/
lemma trend_slope_arith8 (a d : ℚ) :
    calculate_trend_slope [0, 1, 2, 3, 4, 5, 6, 7]
      [a, a + d, a + 2 * d, a + 3 * d, a + 4 * d, a + 5 * d, a + 6 * d,
       a + 7 * d] = d := by
  rw [calculate_trend_slope, if_neg (by norm_num)]
  norm_num [List.zipWith]
  rw [div_eq_iff (by norm_num)]
  ring

/-- Eight completed one-per-day sessions whose sentiment scores rise
linearly with common difference `d` from `a`. -/
def c4Sessions (a d : ℚ) : List Session :=
  [mkSession 0 "completed" (some a) "",
   mkSession 1 "completed" (some (a + d)) "",
   mkSession 2 "completed" (some (a + 2 * d)) "",
   mkSession 3 "completed" (some (a + 3 * d)) "",
   mkSession 4 "completed" (some (a + 4 * d)) "",
   mkSession 5 "completed" (some (a + 5 * d)) "",
   mkSession 6 "completed" (some (a + 6 * d)) "",
   mkSession 7 "completed" (some (a + 7 * d)) ""]

/-- The daily grouping of the linear history is the history itself. -/
lemma c4_daily (a d : ℚ) :
    daily_sentiment_averages
      [(0, a), (1, a + d), (2, a + 2 * d), (3, a + 3 * d), (4, a + 4 * d),
       (5, a + 5 * d), (6, a + 6 * d), (7, a + 7 * d)] =
      [(0, a), (1, a + d), (2, a + 2 * d), (3, a + 3 * d), (4, a + 4 * d),
       (5, a + 5 * d), (6, a + 6 * d), (7, a + 7 * d)] := by
  have hdates : (([(0, a), (1, a + d), (2, a + 2 * d), (3, a + 3 * d),
      (4, a + 4 * d), (5, a + 5 * d), (6, a + 6 * d),
      (7, a + 7 * d)] : List (ℤ × ℚ)).map Prod.fst).eraseDups =
      [0, 1, 2, 3, 4, 5, 6, 7] := by
    have : (([(0, a), (1, a + d), (2, a + 2 * d), (3, a + 3 * d),
        (4, a + 4 * d), (5, a + 5 * d), (6, a + 6 * d),
        (7, a + 7 * d)] : List (ℤ × ℚ)).map Prod.fst) =
        [0, 1, 2, 3, 4, 5, 6, 7] := by simp
    rw [this]
    decide
  rw [daily_sentiment_averages, hdates]
  norm_num [List.filterMap, avgOf, sortByDate, insertByDate]

set_option maxHeartbeats 2000000 in
set_option maxRecDepth 4096 in
/-- Core computation behind C4: trend and confidences of the prediction
on an eight-day linear history with daily increment above 0.01. -/
lemma predict_sentiment_linear_eight_aux (a d : ℚ) (hd : 1 / 100 < d) :
    ((predict_sentiment_trends (c4Sessions a d)).map fun r =>
      r.currentTrend) = some "improving" ∧
    ((predict_sentiment_trends (c4Sessions a d)).map fun r =>
      r.futurePredictions.map fun p => p.confidence) =
      some [9/10, 4/5, 7/10, 3/5, 1/2, 1/2, 1/2] := by
  have hdata : (c4Sessions a d).filterMap (fun s =>
      s.sentimentScore.map fun c => (s.date, c)) =
      [(0, a), (1, a + d), (2, a + 2 * d), (3, a + 3 * d), (4, a + 4 * d),
       (5, a + 5 * d), (6, a + 6 * d), (7, a + 7 * d)] := by
    simp [c4Sessions, List.filterMap]
  have hrange8 : (List.range 8).map (fun i : ℕ => (i : ℚ)) =
      [0, 1, 2, 3, 4, 5, 6, 7] := by
    simp [List.range_succ]
  rw [predict_sentiment_trends, hdata]
  rw [if_neg (by norm_num)]
  rw [c4_daily a d]
  simp only [List.map_cons, List.map_nil, List.length_cons,
    List.length_nil, Nat.reduceAdd, hrange8, trend_slope_arith8 a d]
  rw [if_pos (by linarith : d > 1 / 100)]
  constructor
  · rfl
  · norm_num [List.range_succ, max_def]

/-- C4 (amended): for an eight-day history whose daily-average sentiment
increases linearly with a daily increment above 0.01,
`_predict_sentiment_trends` reports current_trend `improving` and returns
7 future predictions whose confidence values are 0.9, 0.8, 0.7, 0.6, 0.5,
0.5, 0.5 — the source formula max(0.5, 1.0−0.1·i), which is
non-increasing but not strictly decreasing, because the 0.5 floor is
reached from the fifth prediction on.  (For an increment at or below
0.01, current_trend would be `stable`, so the claim needs that bound.) -/
theorem predict_sentiment_linear_eight (a d : ℚ) (hd : 1 / 100 < d) :
    ((predict_sentiment_trends (c4Sessions a d)).map fun r =>
      r.currentTrend) = some "improving" ∧
    ((predict_sentiment_trends (c4Sessions a d)).map fun r =>
      r.futurePredictions.map fun p => p.confidence) =
      some [9/10, 4/5, 7/10, 3/5, 1/2, 1/2, 1/2] :=
  predict_sentiment_linear_eight_aux a d hd

/-- C4 counterexample: on the concrete linear history with a = 0.2 and
d = 0.05 the seven confidence values are 0.9, 0.8, 0.7, 0.6, 0.5, 0.5,
0.5 — not strictly decreasing, refuting the claimed strict decrease. -/
theorem predict_confidences_not_strict_cex :
    ((predict_sentiment_trends (c4Sessions (1/5) (1/20))).map fun r =>
      r.futurePredictions.map fun p => p.confidence) =
      some [9/10, 4/5, 7/10, 3/5, 1/2, 1/2, 1/2] ∧
    ¬ List.Chain' (· > ·)
      ([9/10, 4/5, 7/10, 3/5, 1/2, 1/2, 1/2] : List ℚ) := by
  constructor
  · exact (predict_sentiment_linear_eight_aux (1/5) (1/20) (by norm_num)).2
  · norm_num [List.chain'_cons]

/-- C4 witness: the amended statement at a = 0.2, d = 0.05. -/
theorem predict_sentiment_linear_eight_witness :
    ((predict_sentiment_trends (c4Sessions (1/5) (1/20))).map fun r =>
      r.currentTrend) = some "improving" ∧
    ((predict_sentiment_trends (c4Sessions (1/5) (1/20))).map fun r =>
      r.futurePredictions.map fun p => p.confidence) =
      some [9/10, 4/5, 7/10, 3/5, 1/2, 1/2, 1/2] :=
  predict_sentiment_linear_eight (1/5) (1/20) (by norm_num)
